import Mathlib

/-!
Shallow embedding of the enproxy server-side session router (`proxy.go` and the
refactored variant in `src/unnamed/part_000`) and of the client-side read loop
(`conn_impl_reads.go`).

Bytes are modelled as `Nat`, byte sequences as `List Nat`.  A socket's behaviour
during one GET request is modelled as the sequence of read results it produces:
a list of data chunks followed by a terminal condition (EOF, a deadline timeout,
or another error).  A Go read that returns both data and `io.EOF` in one call is
represented as a data chunk followed by the `eof` terminator; both server read
loops treat these identically (the data is written to the response first).
-/

namespace Enproxy

abbrev Byte := Nat

/-- Terminal condition of the outbound socket's read stream during one GET:
a genuine end-of-stream (`io.EOF`), a read-deadline timeout (`net.Error` with
`Timeout() == true`), or any other read error. -/
inductive ReadEnd where
  | eof
  | timeout
  | otherErr
deriving DecidableEq

/-- The read results the outbound socket produces during one GET: data chunks
(each one successful `Read` call) followed by a terminal condition. -/
structure ConnStream where
  chunks : List (List Byte)
  readEnd : ReadEnd
deriving DecidableEq

/-- Server-side lazy connection, one per connection id (`lazyConn`).  The
`hitEOF` and `bytesRead` fields are the ones the sampled files read and write.
The `conn` field (the dialed socket, absent until the first `get()`) is
modelled from the spec: the lazyConn's own file is not among the sampled
sources; §4.2 says the socket is created on demand, at most once, using the
destination address recorded at creation. -/
structure LazyConn where
  id : String
  addr : String
  conn : Option Nat
  hitEOF : Bool
  bytesRead : Nat
deriving DecidableEq

/-- Modelled from the spec: `newLazyConn(id, addr)` records id and address;
no socket exists yet, no EOF seen, zero bytes read (§3, §4.2). -/
def newLazyConn (id : String) (addr : String) : LazyConn :=
  { id := id, addr := addr, conn := none, hitEOF := false, bytesRead := 0 }

/-- Modelled from the spec: `lazyConn.get()` returns the owned outbound socket,
dialing it on first call (using the destination address recorded at creation)
and caching the result for all subsequent calls; returns a failure if dial
fails (§4.2).  `dial` is the dial primitive: `some handle` on success. -/
def LazyConn.get (dial : String → Option Nat) (l : LazyConn) :
    Option (Nat × LazyConn) :=
  match l.conn with
  | some c => some (c, l)
  | none =>
    match dial l.addr with
    | some c => some (c, { l with conn := some c })
    | none => none

/-- The router's id → lazyConn map (`Proxy.connMap`), as an association list.
Insertion conses a fresh binding; `List.lookup` returns the newest. -/
structure ProxyState where
  connMap : List (String × LazyConn)
deriving DecidableEq

/-- `Proxy.getLazyConn(id, addr)`: look the id up in `connMap` under the map
mutex; if absent, create a `newLazyConn(id, addr)` and store it. -/
def getLazyConn (st : ProxyState) (id : String) (addr : String) :
    LazyConn × ProxyState :=
  match st.connMap.lookup id with
  | some l => (l, st)
  | none =>
    let l := newLazyConn id addr
    (l, ⟨(id, l) :: st.connMap⟩)

/-- Replace the binding for `id` in the map (Go's lazyConn is a pointer, so
mutations made by a handler are visible in the map; the model re-stores the
updated value). -/
def ProxyState.store (st : ProxyState) (id : String) (l : LazyConn) :
    ProxyState :=
  ⟨st.connMap.map (fun p => if p.1 = id then (id, l) else p)⟩

/-- An HTTP response as the handlers build it: status code, whether the
`X_HTTPCONN_EOF` header was set to "true", and the body bytes written. -/
structure Response where
  status : Nat
  eofHeader : Bool
  body : List Byte
deriving DecidableEq

/-- `badGateway` (part_000): writes status 502 and nothing else. -/
def badGatewayResp : Response :=
  { status := 502, eofHeader := false, body := [] }

/-- An inbound HTTP request, reduced to the values the handlers extract:
the method, the results of `Header.Get` on `X_HTTPCONN_ID` and
`X_HTTPCONN_DEST_ADDR` (Go's `Header.Get` returns "" when the header is
missing), and the request body. -/
structure Request where
  method : String
  connId : String
  destAddr : String
  body : List Byte
deriving DecidableEq

/-- `Proxy.handlePOST`: `io.Copy(connOut, req.Body)` forwards the body to the
outbound socket; on a copy error other than `io.EOF` it answers `badGateway`,
otherwise it writes status 200 with an empty body.  `copyFail = some k` models
the copy failing after `k` bytes reached the socket; `none` models success
(`io.Copy` itself never returns `io.EOF`).  Returns the response and the bytes
written to the outbound socket. -/
def handlePOST (copyFail : Option Nat) (body : List Byte) :
    Response × List Byte :=
  match copyFail with
  | none => ({ status := 200, eofHeader := false, body := [] }, body)
  | some k => (badGatewayResp, body.take k)

/-- The single read deadline `handleGET` installs before `io.Copy`:
`connOut.SetReadDeadline(time.Now().Add(30 * time.Second))`, in
milliseconds. -/
def streamingReadDeadlineMs : Nat := 30000

/-- `FlushInterval` default in part_000: `50 * time.Millisecond`. -/
def defaultFlushIntervalMs : Nat := 50

/-- `IdleTimeout` default: 70 seconds (field comment in both proxy files). -/
def defaultIdleTimeoutMs : Nat := 70000

/-- Result of one GET handled by part_000's `handleGET`: the response, the
updated lazyConn, how many `Read` calls were made on the outbound socket, and
the read deadlines (ms) installed on it. -/
structure GetResult where
  resp : Response
  lc : LazyConn
  socketReads : Nat
  deadlinesMs : List Nat
deriving DecidableEq

/-- `Proxy.handleGET` (part_000, streaming variant).  If `lc.hitEOF` is
already set: set the EOF header, write 200, return — no socket read, no
deadline.  Otherwise: write 200 immediately (the EOF header cannot be set,
headers are already sent), install one 30-second read deadline, and
`io.Copy(mlw, connOut)` until error.  `io.Copy` returns `nil` exactly when the
socket returned `io.EOF` (after writing any data read first); the code then
performs one additional `connOut.Read(emptyBuffer)` which reports `io.EOF`
again, and sets `lc.hitEOF`.  A timeout or other error leaves `hitEOF`
unchanged. -/
def handleGET (lc : LazyConn) (s : ConnStream) : GetResult :=
  if lc.hitEOF then
    { resp := { status := 200, eofHeader := true, body := [] },
      lc := lc, socketReads := 0, deadlinesMs := [] }
  else
    match s.readEnd with
    | .eof =>
      { resp := { status := 200, eofHeader := false, body := s.chunks.flatten },
        lc := { lc with hitEOF := true },
        socketReads := s.chunks.length + 2,
        deadlinesMs := [streamingReadDeadlineMs] }
    | _ =>
      { resp := { status := 200, eofHeader := false, body := s.chunks.flatten },
        lc := lc,
        socketReads := s.chunks.length + 1,
        deadlinesMs := [streamingReadDeadlineMs] }

/-- Result of one request through part_000's `ServeHTTP`: response, new router
state, addresses for which an outbound dial was attempted during this request,
bytes forwarded to the outbound socket, and socket `Read` calls made. -/
structure ServeResult where
  resp : Response
  state : ProxyState
  dials : List String
  forwarded : List Byte
  socketReads : Nat
deriving DecidableEq

/-- `Proxy.ServeHTTP` (part_000).  Missing id or address header: `badGateway`,
nothing else happens.  Otherwise `getLazyConn` (creating a map entry if the id
is new), then `lc.get()` (dialing if the socket does not exist yet; a dial
failure answers `badGateway` but the map entry created by `getLazyConn`
remains).  Only after that is the method inspected: POST forwards the body,
GET streams, anything else answers `badGateway`. -/
def ServeHTTP (dial : String → Option Nat) (copyFail : Option Nat)
    (s : ConnStream) (st : ProxyState) (req : Request) : ServeResult :=
  if req.connId = "" then
    { resp := badGatewayResp, state := st, dials := [], forwarded := [],
      socketReads := 0 }
  else if req.destAddr = "" then
    { resp := badGatewayResp, state := st, dials := [], forwarded := [],
      socketReads := 0 }
  else
    let pr := getLazyConn st req.connId req.destAddr
    let lc := pr.1
    let st1 := pr.2
    let dialsAttempted : List String :=
      match lc.conn with
      | some _ => []
      | none => [lc.addr]
    match lc.get dial with
    | none =>
      { resp := badGatewayResp, state := st1, dials := dialsAttempted,
        forwarded := [], socketReads := 0 }
    | some (_, lcD) =>
      let st2 := st1.store req.connId lcD
      if req.method = "POST" then
        let pr2 := handlePOST copyFail req.body
        { resp := pr2.1, state := st2, dials := dialsAttempted,
          forwarded := pr2.2, socketReads := 0 }
      else if req.method = "GET" then
        let g := handleGET lcD s
        { resp := g.resp, state := st2.store req.connId g.lc,
          dials := dialsAttempted, forwarded := [],
          socketReads := g.socketReads }
      else
        { resp := badGatewayResp, state := st2, dials := dialsAttempted,
          forwarded := [], socketReads := 0 }

/-- The response-writing loop of the older `proxy.go` `ServeHTTP` (polling
variant), lines 109–166: each iteration installs a fresh read deadline of
`p.IdleInterval`, reads, writes 200 plus the EOF header (iff the first read
returned `io.EOF`) on the first iteration, writes any data, and stops on
timeout, EOF, or another error.  Returns the response and the list of
deadlines (ms) installed — one per socket read. -/
def proxyGoServeRead (idleIntervalMs : Nat) (s : ConnStream) :
    Response × List Nat :=
  ({ status := 200,
     eofHeader := s.chunks.isEmpty && decide (s.readEnd = ReadEnd.eof),
     body := s.chunks.flatten },
   List.replicate (s.chunks.length + 1) idleIntervalMs)

/-! Client side: the read loop of `conn_impl_reads.go`. -/

/-- A read error as the client observes it from the response body: `io.EOF` or
some other error (`none` in an `Option RErr` stands for a nil error). -/
inductive RErr where
  | eofErr
  | otherErr
deriving DecidableEq

/-- The `rwResponse` sent back to the public `Read` caller over
`readResponsesCh`: byte count and error. -/
structure RWResponse where
  n : Nat
  err : Option RErr
deriving DecidableEq

/-- What the read loop does after answering a submission: keep looping or
return (terminating the loop, after which `cleanupAfterReads` runs). -/
inductive LoopMove where
  | continueLoop
  | stopLoop
deriving DecidableEq

/-- Outcome of processing one read submission against a live response body
(`processReads`, lines 86–116): the `rwResponse` sent to the caller, whether
the loop continues, and whether `resp` was closed and set to nil (so the next
submission issues a fresh GET). -/
structure ActiveReadResult where
  sent : RWResponse
  move : LoopMove
  respCleared : Bool
deriving DecidableEq

/-- `processReads`, lines 86–116: after `resp.Body.Read(b)` returns `(n, err)`
with the response's `X_ENPROXY_EOF` header value `eofHdr`, compute
`hitEOFUpstream := eofHdr == "true"`; `errToClient` is `err` except that a
plain `io.EOF` with no upstream-EOF header is suppressed to nil; send
`rwResponse{n, errToClient}`; then on `io.EOF` close the body, set `resp` to
nil, and stop only if the upstream-EOF header was present; on another error
stop; on no error keep looping. -/
def processActiveRead (n : Nat) (err : Option RErr) (eofHdr : String) :
    ActiveReadResult :=
  let hitEOFUpstream : Bool := eofHdr = "true"
  let errToClient : Option RErr :=
    if err = some RErr.eofErr && !hitEOFUpstream then none else err
  match err with
  | none =>
    { sent := { n := n, err := errToClient }, move := .continueLoop,
      respCleared := false }
  | some .eofErr =>
    if hitEOFUpstream then
      { sent := { n := n, err := errToClient }, move := .stopLoop,
        respCleared := true }
    else
      { sent := { n := n, err := errToClient }, move := .continueLoop,
        respCleared := true }
  | some .otherErr =>
    { sent := { n := n, err := errToClient }, move := .stopLoop,
      respCleared := false }

/-- The read-side state the shutdown logic touches: the `doneReading` flag
(guarded by `readMutex`) and the submissions queued in `readRequestsCh`. -/
structure ReadLoopState where
  doneReading : Bool
  pendingReads : List Nat
deriving DecidableEq

/-- `Conn.submitRead`: under the read lock, if `doneReading` return false
without touching the channel; otherwise enqueue the buffer and return true. -/
def submitRead (st : ReadLoopState) (b : Nat) : Bool × ReadLoopState :=
  if st.doneReading then (false, st)
  else (true, { st with pendingReads := st.pendingReads ++ [b] })

/-- `Conn.cleanupAfterReads`: set `doneReading` under the write lock, then
drain `readRequestsCh`, answering each still-queued submission with
`rwResponse{0, io.EOF}`, and finally close the channel.  Returns the state
after cleanup and the responses delivered during the drain. -/
def cleanupAfterReads (st : ReadLoopState) :
    ReadLoopState × List RWResponse :=
  ({ doneReading := true, pendingReads := [] },
   st.pendingReads.map (fun _ => { n := 0, err := some RErr.eofErr }))

/-- The operations of `conn_impl_reads.go` that touch the read-side state:
a `submitRead`, the read loop consuming a queued submission, and
`cleanupAfterReads`.  No operation in the file ever clears `doneReading`. -/
inductive ReadOp where
  | submit (b : Nat)
  | consume
  | cleanup
deriving DecidableEq

/-- Effect of each read-side operation on the state. -/
def applyReadOp (st : ReadLoopState) : ReadOp → ReadLoopState
  | .submit b => (submitRead st b).2
  | .consume => { st with pendingReads := st.pendingReads.tail }
  | .cleanup => (cleanupAfterReads st).1

/-- Outcome of a read submission consumed by `processReads` when no response
is active and the connection is idle (lines 62–68: `if c.isIdle() { return }`),
followed by the deferred `cleanupAfterReads`: whether a GET was issued, the
response delivered to the submitting caller, the responses delivered to
submissions still queued, and the final state. -/
structure IdleSubResult where
  getIssued : Bool
  responseToSubmitter : Option RWResponse
  drained : List RWResponse
  state : ReadLoopState
deriving DecidableEq

/-- `processReads` lines 62–68 with the deferred cleanup (lines 128–146): the
triggering submission has already been received from `readRequestsCh`; the
idle branch returns from the loop without sending on `readResponsesCh` (no
`doRequest` call occurs on this path), and `cleanupAfterReads` answers only
the submissions still queued. -/
def handleIdleSubmission (st : ReadLoopState) : IdleSubResult :=
  let c := cleanupAfterReads st
  { getIssued := false, responseToSubmitter := none, drained := c.2,
    state := c.1 }

/-! The flush-paced writer (`maxLatencyWriter`, part_000 lines 167–196). -/

/-- State of a `maxLatencyWriter` and its destination: the bytes written to
`dst` since the last flush (the sink buffers until flushed), the bytes already
delivered by flushes, and whether the background ticker is still running. -/
structure MLWState where
  unflushed : List Byte
  flushed : List Byte
  tickerRunning : Bool
deriving DecidableEq

/-- `maxLatencyWriter.Write`: under the lock, write to `dst` (buffered until
the next flush). -/
def mlwWrite (st : MLWState) (p : List Byte) : MLWState :=
  { st with unflushed := st.unflushed ++ p }

/-- One ticker tick of `flushLoop`: under the lock, `dst.Flush()`, delivering
everything written since the last flush. -/
def mlwTick (st : MLWState) : MLWState :=
  { st with flushed := st.flushed ++ st.unflushed, unflushed := [] }

/-- `maxLatencyWriter.stop`: send on `done`; `flushLoop` receives it and
returns, its deferred `t.Stop()` cancelling the ticker.  No flush is performed
on this path. -/
def mlwStop (st : MLWState) : MLWState :=
  { st with tickerRunning := false }

/-! Concrete instances used by the counterexamples and witnesses below. -/

/-- A lazyConn whose socket is already dialed and that has not yet hit EOF. -/
def lcEofDemo : LazyConn :=
  { id := "a", addr := "b", conn := some 1, hitEOF := false, bytesRead := 0 }

/-- First GET for `lcEofDemo`: the socket yields one chunk and then EOF. -/
def getDemo1 : GetResult := handleGET lcEofDemo ⟨[[7]], .eof⟩

/-- Second GET for the same id, after EOF. -/
def getDemo2 : GetResult := handleGET getDemo1.lc ⟨[], .eof⟩

/-- Third GET for the same id, after EOF. -/
def getDemo3 : GetResult := handleGET getDemo2.lc ⟨[], .eof⟩

/-- A request with both headers present but an unsupported method. -/
def putReq : Request :=
  { method := "PUT", connId := "a", destAddr := "b", body := [] }

/-- A dial primitive that always succeeds with socket handle 1. -/
def dialOk : String → Option Nat := fun _ => some 1

/-- A GET-phase socket stream: no data, then a deadline timeout. -/
def streamTimeout : ConnStream := ⟨[], .timeout⟩

/-- A lazyConn (already dialed, no EOF) whose GET times out after two
chunks. -/
def lcTimeoutDemo : LazyConn :=
  { id := "t", addr := "u", conn := some 2, hitEOF := false, bytesRead := 0 }

/-- A socket stream with two data chunks followed by a timeout. -/
def streamTwoChunks : ConnStream := ⟨[[1], [2]], .timeout⟩

/-- A flush-paced writer with one unflushed byte and a live ticker. -/
def mlwDemo : MLWState := { unflushed := [7], flushed := [], tickerRunning := true }

/-! Theorems. -/

/-- C1: for a POST carrying any byte sequence for an existing connection id
(map entry present, socket already dialed), whose copy to the outbound socket
succeeds, the server forwards exactly the body bytes, in order, to the
outbound socket and responds with status 200. -/
theorem post_forwards_exactly (st : ProxyState) (req : Request)
    (dial : String → Option Nat) (s : ConnStream) (lc : LazyConn) (c : Nat)
    (hm : req.method = "POST") (hid : req.connId ≠ "") (ha : req.destAddr ≠ "")
    (hlk : st.connMap.lookup req.connId = some lc) (hc : lc.conn = some c) :
    (ServeHTTP dial none s st req).forwarded = req.body ∧
    (ServeHTTP dial none s st req).resp.status = 200 := by
  simp [ServeHTTP, getLazyConn, hlk, hid, ha, hm, LazyConn.get, hc, handlePOST]

/-- Witness for C1 at a concrete state and request. -/
theorem post_forwards_exactly_witness :
    (ServeHTTP dialOk none streamTimeout ⟨[("a", lcEofDemo)]⟩
        { method := "POST", connId := "a", destAddr := "b", body := [3, 4, 5] }).forwarded
      = [3, 4, 5] ∧
    (ServeHTTP dialOk none streamTimeout ⟨[("a", lcEofDemo)]⟩
        { method := "POST", connId := "a", destAddr := "b", body := [3, 4, 5] }).resp.status
      = 200 :=
  post_forwards_exactly ⟨[("a", lcEofDemo)]⟩
    { method := "POST", connId := "a", destAddr := "b", body := [3, 4, 5] }
    dialOk streamTimeout lcEofDemo 1 rfl (by decide) (by decide) (by decide) rfl

/-- C2: in the client read loop, a body read that returns `io.EOF` with no
upstream-EOF header on the response surfaces a nil error to the caller, clears
the active response and keeps looping (so the next submission issues a fresh
GET); when the upstream-EOF header is "true", the EOF is surfaced to the
caller and the loop stops. -/
theorem read_eof_suppression (n : Nat) (eofHdr : String) :
    (eofHdr ≠ "true" →
      processActiveRead n (some RErr.eofErr) eofHdr =
        { sent := { n := n, err := none }, move := .continueLoop,
          respCleared := true }) ∧
    (eofHdr = "true" →
      processActiveRead n (some RErr.eofErr) eofHdr =
        { sent := { n := n, err := some RErr.eofErr }, move := .stopLoop,
          respCleared := true }) := by
  constructor <;> intro h <;> simp [processActiveRead, h]

/-- Witness for C2 at an absent header and at header value "true". -/
theorem read_eof_suppression_witness :
    processActiveRead 5 (some RErr.eofErr) "" =
      { sent := { n := 5, err := none }, move := .continueLoop,
        respCleared := true } ∧
    processActiveRead 0 (some RErr.eofErr) "true" =
      { sent := { n := 0, err := some RErr.eofErr }, move := .stopLoop,
        respCleared := true } :=
  ⟨(read_eof_suppression 5 "").1 (by decide),
   (read_eof_suppression 0 "true").2 rfl⟩

/-- C3 counterexample: with the socket at EOF, the first GET sets the
permanent flag (its own response carries no EOF header), and then BOTH the
second and the third GET responses for the same id carry the EOF header — the
header is communicated on every subsequent GET, not exactly once. -/
theorem eof_header_more_than_once :
    getDemo1.lc.hitEOF = true ∧
    getDemo1.resp.eofHeader = false ∧
    getDemo2.resp.eofHeader = true ∧
    getDemo3.resp.eofHeader = true := by
  decide

/-- C3 (amended): once the socket reports EOF during a GET, the permanent
flag is set and any data read is reported in that response's body (whose own
EOF header is not set — headers were already written); every GET served while
the flag is set is answered with an empty 200 response carrying the EOF
header, with no socket read and no deadline installed — so the header reaches
the client on its next GET and on every GET after that. -/
theorem handleGET_eof_flag (lc lc2 : LazyConn) (s s2 : ConnStream)
    (h1 : lc.hitEOF = false) (h2 : s.readEnd = .eof) (h3 : lc2.hitEOF = true) :
    (handleGET lc s).lc.hitEOF = true ∧
    (handleGET lc s).resp.body = s.chunks.flatten ∧
    (handleGET lc s).resp.eofHeader = false ∧
    (handleGET lc s).resp.status = 200 ∧
    handleGET lc2 s2 =
      { resp := { status := 200, eofHeader := true, body := [] },
        lc := lc2, socketReads := 0, deadlinesMs := [] } := by
  simp [handleGET, h1, h2, h3]

/-- Witness for the amended C3 at concrete connections and streams. -/
theorem handleGET_eof_flag_witness :
    (handleGET lcEofDemo ⟨[[9]], .eof⟩).lc.hitEOF = true ∧
    (handleGET lcEofDemo ⟨[[9]], .eof⟩).resp.body = [9] ∧
    (handleGET lcEofDemo ⟨[[9]], .eof⟩).resp.eofHeader = false ∧
    (handleGET lcEofDemo ⟨[[9]], .eof⟩).resp.status = 200 ∧
    handleGET { lcEofDemo with hitEOF := true } streamTimeout =
      { resp := { status := 200, eofHeader := true, body := [] },
        lc := { lcEofDemo with hitEOF := true }, socketReads := 0,
        deadlinesMs := [] } :=
  handleGET_eof_flag lcEofDemo { lcEofDemo with hitEOF := true }
    ⟨[[9]], .eof⟩ streamTimeout rfl rfl rfl

/-- C4: a GET for an id whose lazyConn already has the permanent EOF flag set
is answered immediately with status 200, the EOF header set, and an empty
body, with no read attempted on the outbound socket. -/
theorem handleGET_short_circuit (lc : LazyConn) (s : ConnStream)
    (h : lc.hitEOF = true) :
    handleGET lc s =
      { resp := { status := 200, eofHeader := true, body := [] },
        lc := lc, socketReads := 0, deadlinesMs := [] } := by
  simp [handleGET, h]

/-- Witness for C4 at a concrete EOF-flagged connection. -/
theorem handleGET_short_circuit_witness :
    handleGET { lcTimeoutDemo with hitEOF := true } streamTwoChunks =
      { resp := { status := 200, eofHeader := true, body := [] },
        lc := { lcTimeoutDemo with hitEOF := true }, socketReads := 0,
        deadlinesMs := [] } :=
  handleGET_short_circuit { lcTimeoutDemo with hitEOF := true }
    streamTwoChunks rfl

/-- C5 counterexample: a PUT request with both headers present is answered
502, yet a map entry for its id is created and an outbound dial is attempted
— `ServeHTTP` calls `getLazyConn` and `lc.get()` before checking the
method. -/
theorem put_creates_state :
    (ServeHTTP dialOk none streamTimeout ⟨[]⟩ putReq).resp.status = 502 ∧
    (ServeHTTP dialOk none streamTimeout ⟨[]⟩ putReq).state.connMap.length = 1 ∧
    (ServeHTTP dialOk none streamTimeout ⟨[]⟩ putReq).dials = ["b"] := by
  decide

/-- C5 (amended): a request missing the Connection-Id or Destination-Address
header is answered 502 with the router state untouched and no dial attempted;
a request with both headers but a method other than POST or GET is also
answered 502, but only after the map entry for its id has been created and
the outbound dial attempted. -/
theorem serve_malformed (st : ProxyState) (dial : String → Option Nat)
    (cf : Option Nat) (s : ConnStream) (req : Request) (c : Nat) :
    (req.connId = "" →
      ServeHTTP dial cf s st req =
        { resp := badGatewayResp, state := st, dials := [], forwarded := [],
          socketReads := 0 }) ∧
    (req.destAddr = "" →
      ServeHTTP dial cf s st req =
        { resp := badGatewayResp, state := st, dials := [], forwarded := [],
          socketReads := 0 }) ∧
    (req.method ≠ "POST" → req.method ≠ "GET" → req.connId ≠ "" →
     req.destAddr ≠ "" → st.connMap.lookup req.connId = none →
     dial req.destAddr = some c →
      (ServeHTTP dial cf s st req).resp = badGatewayResp ∧
      (ServeHTTP dial cf s st req).state.connMap.lookup req.connId =
        some { id := req.connId, addr := req.destAddr, conn := some c,
               hitEOF := false, bytesRead := 0 } ∧
      (ServeHTTP dial cf s st req).dials = [req.destAddr]) := by
  refine ⟨?_, ?_, ?_⟩
  · intro h
    simp [ServeHTTP, h]
  · intro h
    by_cases hid : req.connId = "" <;> simp [ServeHTTP, h, hid]
  · intro hp hg hid ha hlk hd
    simp [ServeHTTP, hid, ha, getLazyConn, hlk, newLazyConn, LazyConn.get, hd,
      hp, hg, ProxyState.store, List.lookup]

/-- Witness for the amended C5: a missing id leaves the state untouched, and
a PUT with both headers creates the entry and dials. -/
theorem serve_malformed_witness :
    ServeHTTP dialOk none streamTimeout ⟨[]⟩
        { method := "PUT", connId := "", destAddr := "b", body := [] } =
      { resp := badGatewayResp, state := ⟨[]⟩, dials := [], forwarded := [],
        socketReads := 0 } ∧
    ((ServeHTTP dialOk none streamTimeout ⟨[]⟩ putReq).resp = badGatewayResp ∧
     (ServeHTTP dialOk none streamTimeout ⟨[]⟩ putReq).state.connMap.lookup "a" =
       some { id := "a", addr := "b", conn := some 1, hitEOF := false,
              bytesRead := 0 } ∧
     (ServeHTTP dialOk none streamTimeout ⟨[]⟩ putReq).dials = ["b"]) :=
  ⟨(serve_malformed ⟨[]⟩ dialOk none streamTimeout
      { method := "PUT", connId := "", destAddr := "b", body := [] } 1).1 rfl,
   (serve_malformed ⟨[]⟩ dialOk none streamTimeout putReq 1).2.2
     (by decide) (by decide) (by decide) (by decide) rfl rfl⟩

/-- C6 counterexample: in the streaming variant (part_000's `handleGET`), a
GET that performs three socket reads (two chunks, then a timeout) installs a
single read deadline, the fixed 30-second one — not one deadline per read, and
equal to no configured interval of that server (FlushInterval defaults to
50 ms, IdleTimeout to 70 s). -/
theorem streaming_deadline_fixed :
    (handleGET lcTimeoutDemo streamTwoChunks).deadlinesMs =
      [streamingReadDeadlineMs] ∧
    (handleGET lcTimeoutDemo streamTwoChunks).socketReads = 3 ∧
    streamingReadDeadlineMs = 30000 ∧
    streamingReadDeadlineMs ≠ defaultFlushIntervalMs ∧
    streamingReadDeadlineMs ≠ defaultIdleTimeoutMs := by
  decide

/-- C6 (amended): a GET whose socket read times out with no EOF ends the
response normally with status 200, no EOF header, and the permanent flag
unchanged; in the polling variant (`proxy.go`) every socket read installs a
deadline equal to the server's IdleInterval, while in the streaming variant
(part_000) a single fixed 30-second deadline is installed per GET. -/
theorem timeout_normal_end (lc : LazyConn) (s : ConnStream) (ii : Nat)
    (h1 : lc.hitEOF = false) (h2 : s.readEnd = .timeout) :
    (handleGET lc s).resp.status = 200 ∧
    (handleGET lc s).resp.eofHeader = false ∧
    (handleGET lc s).lc = lc ∧
    (handleGET lc s).deadlinesMs = [streamingReadDeadlineMs] ∧
    (proxyGoServeRead ii s).1.status = 200 ∧
    (proxyGoServeRead ii s).1.eofHeader = false ∧
    (proxyGoServeRead ii s).2 = List.replicate (s.chunks.length + 1) ii := by
  simp [handleGET, h1, h2, proxyGoServeRead]

/-- Witness for the amended C6 at a concrete connection and stream. -/
theorem timeout_normal_end_witness :
    (handleGET lcTimeoutDemo streamTwoChunks).resp.status = 200 ∧
    (handleGET lcTimeoutDemo streamTwoChunks).resp.eofHeader = false ∧
    (handleGET lcTimeoutDemo streamTwoChunks).lc = lcTimeoutDemo ∧
    (handleGET lcTimeoutDemo streamTwoChunks).deadlinesMs =
      [streamingReadDeadlineMs] ∧
    (proxyGoServeRead 10 streamTwoChunks).1.status = 200 ∧
    (proxyGoServeRead 10 streamTwoChunks).1.eofHeader = false ∧
    (proxyGoServeRead 10 streamTwoChunks).2 =
      List.replicate (streamTwoChunks.chunks.length + 1) 10 :=
  timeout_normal_end lcTimeoutDemo streamTwoChunks 10 rfl rfl

/-- C7 (code bug): when a read submission is consumed while no response is
active and the connection is idle, the loop returns without issuing a GET,
`doneReading` is set — but no `rwResponse` is ever sent for the consumed
submission: the cleanup drain answers only submissions still queued, so the
caller that made this submission never receives the terminal EOF the spec
promises. -/
theorem idle_submission_unanswered (st : ReadLoopState) :
    (handleIdleSubmission st).getIssued = false ∧
    (handleIdleSubmission st).responseToSubmitter = none ∧
    (handleIdleSubmission st).state.doneReading = true ∧
    (handleIdleSubmission st).drained.length = st.pendingReads.length := by
  simp [handleIdleSubmission, cleanupAfterReads]

/-- C8 counterexample: stopping the writer while a byte written since the
last flush is pending cancels the ticker but flushes nothing: the byte stays
unflushed and the flushed log is unchanged. -/
theorem stop_no_final_flush :
    (mlwStop mlwDemo).tickerRunning = false ∧
    (mlwStop mlwDemo).unflushed = [7] ∧
    (mlwStop mlwDemo).flushed = [] := by
  decide

/-- C8 (amended): stopping the flush-paced writer cancels its background
ticker but performs no final flush — the unflushed bytes and the flushed log
are exactly those before the stop; only a ticker tick delivers the bytes
written since the last flush. -/
theorem mlw_stop_cancels_only (st : MLWState) :
    (mlwStop st).tickerRunning = false ∧
    (mlwStop st).unflushed = st.unflushed ∧
    (mlwStop st).flushed = st.flushed ∧
    (mlwTick st).flushed = st.flushed ++ st.unflushed ∧
    (mlwTick st).unflushed = [] := by
  simp [mlwStop, mlwTick]

/-- C9: `getLazyConn` is idempotent per id — a second call with the same id
(and any address) returns the very connection the first call returned and
leaves the state unchanged, and a call for an id already in the map returns
the stored connection without modifying the map, so the address supplied on
later requests has no effect. -/
theorem getLazyConn_idempotent (st : ProxyState) (id a1 a2 : String) :
    (getLazyConn (getLazyConn st id a1).2 id a2).1 = (getLazyConn st id a1).1 ∧
    (getLazyConn (getLazyConn st id a1).2 id a2).2 = (getLazyConn st id a1).2 ∧
    (∀ l, st.connMap.lookup id = some l → getLazyConn st id a1 = (l, st)) := by
  rcases h : st.connMap.lookup id with _ | l
  · refine ⟨?_, ?_, ?_⟩
    · simp [getLazyConn, h, List.lookup]
    · simp [getLazyConn, h, List.lookup]
    · intro l hl
      simp [h] at hl
  · refine ⟨?_, ?_, ?_⟩
    · simp [getLazyConn, h]
    · simp [getLazyConn, h]
    · intro l2 hl2
      cases Option.some.inj hl2
      simp [getLazyConn, h]

/-- Witness for C9 at a state already holding an entry for the id. -/
theorem getLazyConn_idempotent_witness :
    getLazyConn ⟨[("a", lcEofDemo)]⟩ "a" "other" = (lcEofDemo, ⟨[("a", lcEofDemo)]⟩) :=
  (getLazyConn_idempotent ⟨[("a", lcEofDemo)]⟩ "a" "other" "third").2.2
    lcEofDemo (by decide)

/-- C10: `doneReading` is permanent — no read-side operation clears it; while
it is set, `submitRead` returns false without enqueuing anything; and every
pending submission drained during cleanup receives a zero-byte response with
terminal EOF. -/
theorem doneReading_permanent (st : ReadLoopState) (b : Nat) (op : ReadOp)
    (h : st.doneReading = true) :
    (applyReadOp st op).doneReading = true ∧
    submitRead st b = (false, st) ∧
    (∀ r ∈ (cleanupAfterReads st).2, r = { n := 0, err := some RErr.eofErr }) ∧
    (cleanupAfterReads st).2.length = st.pendingReads.length ∧
    (cleanupAfterReads st).1.doneReading = true := by
  cases op <;>
    simp [applyReadOp, submitRead, cleanupAfterReads, h]

/-- Witness for C10 at a concrete terminal state with one queued
submission. -/
theorem doneReading_permanent_witness :
    (applyReadOp ⟨true, [3]⟩ (ReadOp.submit 4)).doneReading = true ∧
    submitRead ⟨true, [3]⟩ 4 = (false, ⟨true, [3]⟩) ∧
    (∀ r ∈ (cleanupAfterReads ⟨true, [3]⟩).2,
      r = { n := 0, err := some RErr.eofErr }) ∧
    (cleanupAfterReads ⟨true, [3]⟩).2.length = 1 ∧
    (cleanupAfterReads ⟨true, [3]⟩).1.doneReading = true :=
  doneReading_permanent ⟨true, [3]⟩ 4 (ReadOp.submit 4) rfl

end Enproxy
